import Mathlib

/-!
Shallow embedding of the Swissie webhook gateway's verification–transform–forward
pipeline, translated from the TypeScript sources:
  src/services/microBackendForwarder.ts
  src/services/webhookEventLogger.ts
  src/controllers/webhookController.ts
JavaScript values flowing through the pipeline are modelled by an inductive JSON
type; `JSON.stringify` is modelled by a compact serializer preserving insertion
order of object fields and dropping `undefined` (modelled as `Option.none`)
fields of the envelope; JavaScript truthiness is modelled explicitly.
HMAC-SHA256 itself is a crypto primitive of the Node runtime and is taken as an
abstract function parameter `hmacSha256Hex : secret → message → digest`.
-/

/-- JSON values as decoded JavaScript objects (JS numbers restricted to the
integers, which is all the pipeline's claims touch). -/
inductive Json where
  | null : Json
  | bool : Bool → Json
  | num : Int → Json
  | str : String → Json
  | arr : List Json → Json
  | obj : List (String × Json) → Json

/-- Lower-case hex digit for a value below 16, as used by JSON string escapes. -/
def hexDigitChar (n : Nat) : Char :=
  if n < 10 then Char.ofNat (48 + n) else Char.ofNat (87 + n)

/-- Escaping of a single character inside a JSON string literal, following
`JSON.stringify`. -/
def escapeJsonChar (c : Char) : String :=
  if c = '"' then "\\\""
  else if c = '\\' then "\\\\"
  else if c = '\x08' then "\\b"
  else if c = '\x09' then "\\t"
  else if c = '\x0a' then "\\n"
  else if c = '\x0c' then "\\f"
  else if c = '\x0d' then "\\r"
  else if c.toNat < 32 then
    "\\u00" ++ String.singleton (hexDigitChar (c.toNat / 16))
      ++ String.singleton (hexDigitChar (c.toNat % 16))
  else String.singleton c

/-- Escaping of a whole JSON string body, following `JSON.stringify`. -/
def escapeJsonString (s : String) : String :=
  String.join (s.data.map escapeJsonChar)

mutual

/-- Compact JSON serialization: `JSON.stringify` — no whitespace, object fields
in insertion order. -/
def Json.serialize : Json → String
  | Json.null => "null"
  | Json.bool b => if b then "true" else "false"
  | Json.num n => toString n
  | Json.str s => "\"" ++ escapeJsonString s ++ "\""
  | Json.arr xs => "[" ++ serializeElems xs ++ "]"
  | Json.obj fs => "\x7b" ++ serializeFields fs ++ "\x7d"

/-- Comma-separated serialization of JSON array elements. -/
def serializeElems : List Json → String
  | [] => ""
  | [x] => Json.serialize x
  | x :: y :: rest => Json.serialize x ++ "," ++ serializeElems (y :: rest)

/-- Comma-separated serialization of JSON object fields. -/
def serializeFields : List (String × Json) → String
  | [] => ""
  | [(k, v)] => "\"" ++ escapeJsonString k ++ "\":" ++ Json.serialize v
  | (k, v) :: f :: rest =>
      "\"" ++ escapeJsonString k ++ "\":" ++ Json.serialize v ++ ","
        ++ serializeFields (f :: rest)

end

/-- Field access `o.k` on a non-null decoded JSON value: `none` models
`undefined` (missing field, or access on a non-object primitive).  JavaScript
member access on `null` throws a TypeError; that error path is modelled
faithfully by `Json.memberAccess` below, with which this function agrees on
every non-null value. -/
def Json.getField : Json → String → Option Json
  | Json.obj fs, k => (fs.find? (fun p => p.1 == k)).map (fun p => p.2)
  | _, _ => none

/-- JavaScript member access `o.k` on a decoded JSON value, including its
error path: on `null` the access throws a TypeError (modelled as
`Except.error`); on any other non-object value it evaluates to `undefined`
(`Except.ok none`); on an object it reads the field. -/
def Json.memberAccess : Json → String → Except String (Option Json)
  | Json.null, _ => Except.error "TypeError: cannot read properties of null"
  | Json.obj fs, k => Except.ok ((fs.find? (fun p => p.1 == k)).map (fun p => p.2))
  | _, _ => Except.ok none

/-- JavaScript truthiness of a decoded JSON value. -/
def Json.truthy : Json → Bool
  | Json.null => false
  | Json.bool b => b
  | Json.num n => n != 0
  | Json.str s => s != ""
  | Json.arr _ => true
  | Json.obj _ => true

/-- JavaScript `x || d` on a possibly-undefined value: the default is taken when
the value is `undefined` or falsy. -/
def jsOr (v : Option Json) (d : Json) : Json :=
  match v with
  | some j => if j.truthy then j else d
  | none => d

/-- The adapted envelope built by `adaptPayloadForMicroBackend`
(microBackendForwarder.ts).  `event_type` and `external_id` can be any truthy
JSON value taken from the inbound body, hence type `Json`; `correlation_id` is
`undefined` when absent. -/
structure AdaptedEnvelope where
  source : String
  event_type : Json
  external_id : Json
  payload : Json
  occurred_at : String
  correlation_id : Option String
  internal_event_id : String

/-- adaptPayloadForMicroBackend (microBackendForwarder.ts, lines 32–46).  The
ambient clock read `new Date().toISOString()` is made an explicit `nowIso`
parameter. -/
def adaptPayloadForMicroBackend (normalizedPayload : Json) (internalEventId : String)
    (correlationId : Option String) (nowIso : String) : AdaptedEnvelope :=
  { source := "webhook-gateway"
    event_type := jsOr (normalizedPayload.getField "type") (Json.str "webhook_received")
    external_id := jsOr (normalizedPayload.getField "id") (Json.str internalEventId)
    payload := normalizedPayload
    occurred_at := nowIso
    correlation_id := correlationId
    internal_event_id := internalEventId }

/-- adaptPayloadForMicroBackend with its member accesses
`normalizedPayload.type` / `normalizedPayload.id` (microBackendForwarder.ts,
lines 39–40) modelled by the throwing `Json.memberAccess`: on the
JSON-decodable body `null` the access throws a TypeError and the adapter does
not return an envelope.  On every non-null body it agrees with the pure
`adaptPayloadForMicroBackend` above, which the rest of the embedding uses. -/
def adaptPayloadForMicroBackendChecked (normalizedPayload : Json)
    (internalEventId : String) (correlationId : Option String) (nowIso : String) :
    Except String AdaptedEnvelope := do
  let t ← Json.memberAccess normalizedPayload "type"
  let i ← Json.memberAccess normalizedPayload "id"
  pure { source := "webhook-gateway"
         event_type := jsOr t (Json.str "webhook_received")
         external_id := jsOr i (Json.str internalEventId)
         payload := normalizedPayload
         occurred_at := nowIso
         correlation_id := correlationId
         internal_event_id := internalEventId }

/-- The adapted envelope as the JavaScript object literal of the source, field
insertion order preserved; a `correlation_id` of `undefined` is dropped by
`JSON.stringify`, so it is omitted here when absent. -/
def envelopeToJson (e : AdaptedEnvelope) : Json :=
  Json.obj ([("source", Json.str e.source),
             ("event_type", e.event_type),
             ("external_id", e.external_id),
             ("payload", e.payload),
             ("occurred_at", Json.str e.occurred_at)] ++
            (match e.correlation_id with
             | some c => [("correlation_id", Json.str c)]
             | none => []) ++
            [("internal_event_id", Json.str e.internal_event_id)])

/-- generateMicroBackendSignature (microBackendForwarder.ts, lines 13–26).
The clock read `Math.floor(Date.now() / 1000)` is the explicit `nowSec`
parameter; `crypto.createHmac('sha256', secret).update(m).digest('hex')` is the
abstract `hmacSha256Hex secret m`. -/
def generateMicroBackendSignature (hmacSha256Hex : String → String → String)
    (payload : Json) (secret : String) (nowSec : Nat) : String × String :=
  let timestamp := toString nowSec
  let message := timestamp ++ "." ++ Json.serialize payload
  (hmacSha256Hex secret message, timestamp)

/-- MAX_MICRO_BACKEND_RETRIES (microBackendForwarder.ts, line 6). -/
def MAX_MICRO_BACKEND_RETRIES : Nat := 3

/-- Outcome of one `http.post` to the forwarding target: the promise resolves
with a status and body, rejects with an HTTP error response carrying
`err.response.status` / `err.response.data` / `err.message`, or rejects with a
network-level error carrying no response. -/
inductive AttemptOutcome where
  | success (status : Nat) (body : Json)
  | httpError (status : Nat) (body : Json) (msg : String)
  | networkError (msg : String)

/-- Result shape `{ ok, status, body? }` of forwardWithRetry. -/
structure ForwardResult where
  ok : Bool
  status : Nat
  body : Option Json

/-- One outbound HTTP request as passed to `http.post(url, payload, { headers })`. -/
structure HttpRequest where
  url : String
  body : Json
  headers : List (String × String)

/-- The non-retry condition of forwardWithRetry (microBackendForwarder.ts,
line 71): `status && status >= 400 && status < 500 && status !== 429`, where the
leading conjunct is JavaScript truthiness of the numeric status. -/
def isNonRetryableStatus (st : Nat) : Prop :=
  st ≠ 0 ∧ 400 ≤ st ∧ st < 500 ∧ st ≠ 429

instance (st : Nat) : Decidable (isNonRetryableStatus st) := by
  unfold isNonRetryableStatus; infer_instance

/-- The exhausted-retries result `{ ok: false, status: 0, body: { error:
lastError?.message } }` (microBackendForwarder.ts, lines 95–99). -/
def exhaustedResult (lastMsg : Option String) : ForwardResult :=
  { ok := false, status := 0,
    body := some (Json.obj [("error",
      match lastMsg with
      | some m => Json.str m
      | none => Json.null)]) }

/-- The retry loop body of forwardWithRetry (microBackendForwarder.ts,
lines 59–99), recursing on the fuel of remaining attempts; `target n` is the
outcome of the n-th `http.post`.  Returns the result together with the trace of
requests actually sent; backoff delays and jitter affect only timing, not the
result or the trace, and are not modelled. -/
def forwardGo (url : String) (payload : Json) (headers : List (String × String))
    (target : Nat → AttemptOutcome) (attempt : Nat) (lastMsg : Option String) :
    Nat → ForwardResult × List HttpRequest
  | 0 => (exhaustedResult lastMsg, [])
  | fuel + 1 =>
    let req : HttpRequest := { url := url, body := payload, headers := headers }
    match target attempt with
    | AttemptOutcome.success st body =>
        ({ ok := true, status := st, body := some body }, [req])
    | AttemptOutcome.httpError st body msg =>
        if isNonRetryableStatus st then
          ({ ok := false, status := st, body := some body }, [req])
        else
          let rest := forwardGo url payload headers target (attempt + 1) (some msg) fuel
          (rest.1, req :: rest.2)
    | AttemptOutcome.networkError msg =>
        let rest := forwardGo url payload headers target (attempt + 1) (some msg) fuel
        (rest.1, req :: rest.2)

/-- forwardWithRetry (microBackendForwarder.ts, lines 51–100): attempts run
from 1 up to `maxRetries`. -/
def forwardWithRetry (url : String) (payload : Json) (headers : List (String × String))
    (target : Nat → AttemptOutcome) (maxRetries : Nat) : ForwardResult × List HttpRequest :=
  forwardGo url payload headers target 1 none maxRetries

/-- Configuration read from the process environment by forwardToMicroBackend;
an unset variable and the empty string are both falsy in the source's checks
and are modelled uniformly by `""`. -/
structure MicroBackendEnv where
  microBackendUrl : String
  microBackendHmacSecret : String
  microBackendJwt : String
  microBackendDeviceId : String

/-- Header construction of forwardToMicroBackend (microBackendForwarder.ts,
lines 157–173): the base headers, then `Authorization` when a JWT is
configured, then `X-Correlation-Id` when a truthy correlation id is present. -/
def buildMicroBackendHeaders (signature timestamp deviceId jwtToken : String)
    (correlationId : Option String) : List (String × String) :=
  [("Content-Type", "application/json"),
   ("X-Signature", signature),
   ("X-Timestamp", timestamp),
   ("X-Device-ID", deviceId)] ++
  (if jwtToken ≠ "" then [("Authorization", "Bearer " ++ jwtToken)] else []) ++
  (match correlationId with
   | some c => if c ≠ "" then [("X-Correlation-Id", c)] else []
   | none => [])

/-- Header lookup by name. -/
def headerVal (headers : List (String × String)) (k : String) : Option String :=
  (headers.find? (fun p => p.1 == k)).map (fun p => p.2)

/-- forwardToMicroBackend (microBackendForwarder.ts, lines 117–192):
configuration checks, payload adaptation, one-time signing, header
construction, then the retry loop. -/
def forwardToMicroBackend (cfg : MicroBackendEnv)
    (hmacSha256Hex : String → String → String) (nowIso : String) (nowSec : Nat)
    (payload : Json) (internalEventId : String) (correlationId : Option String)
    (target : Nat → AttemptOutcome) : ForwardResult × List HttpRequest :=
  if cfg.microBackendUrl = "" then
    ({ ok := true, status := 204, body := none }, [])
  else if cfg.microBackendHmacSecret = "" then
    ({ ok := false, status := 0,
       body := some (Json.obj [("error",
         Json.str "MICRO_BACKEND_HMAC_SECRET not configured")]) }, [])
  else
    let adaptedPayload := envelopeToJson
      (adaptPayloadForMicroBackend payload internalEventId correlationId nowIso)
    let signed := generateMicroBackendSignature hmacSha256Hex adaptedPayload
      cfg.microBackendHmacSecret nowSec
    let headers := buildMicroBackendHeaders signed.1 signed.2
      cfg.microBackendDeviceId cfg.microBackendJwt correlationId
    let endpoint := cfg.microBackendUrl ++ "/api/v1/flow/create"
    forwardWithRetry endpoint adaptedPayload headers target MAX_MICRO_BACKEND_RETRIES

/-- forwardToDestination (microBackendForwarder.ts, lines 198–215): with
FORWARD_TO_MICRO_BACKEND_ONLY the micro-backend forwarder runs; otherwise the
legacy n8n forwarder, whose source is outside this repository slice, produces
the outcome modelled by the `n8nOutcome` parameter. -/
def forwardToDestination (microOnly : Bool)
    (n8nOutcome : ForwardResult × List HttpRequest) (cfg : MicroBackendEnv)
    (hmacSha256Hex : String → String → String) (nowIso : String) (nowSec : Nat)
    (payload : Json) (internalEventId : String) (correlationId : Option String)
    (target : Nat → AttemptOutcome) : ForwardResult × List HttpRequest :=
  if microOnly then
    forwardToMicroBackend cfg hmacSha256Hex nowIso nowSec payload internalEventId
      correlationId target
  else
    n8nOutcome

/-- Status values of a webhook event log record (webhookEventLogger.ts,
line 14). -/
inductive LogStatus where
  | received : LogStatus
  | processing : LogStatus
  | success : LogStatus
  | failed : LogStatus
deriving DecidableEq

/-- WebhookEventLog (webhookEventLogger.ts, lines 5–19); the `Date` timestamp
is modelled as a Nat clock value, `raw_payload` is never set by the logger's
methods and is omitted. -/
structure WebhookEventLog where
  event_id : String
  env : String
  service_role : String
  source : String
  error_code : Option String
  error_message : Option String
  retry_count : Nat
  last_error : Option String
  status : LogStatus
  response_status : Option Nat
  timestamp : Nat
  correlation_id : Option String
deriving DecidableEq

/-- The webhook_events collection keyed by the unique `event_id` index. -/
abbrev EventStore := List (String × WebhookEventLog)

/-- `collection.updateOne({event_id}, {$set: event}, {upsert: true})`: replace
the record under the key if present, otherwise insert. -/
def upsertEvent : EventStore → WebhookEventLog → EventStore
  | [], e => [(e.event_id, e)]
  | (k, v) :: rest, e =>
      if k = e.event_id then (k, e) :: rest else (k, v) :: upsertEvent rest e

/-- Read back the record stored under an event id. -/
def lookupEvent (store : EventStore) (eventId : String) : Option WebhookEventLog :=
  (store.find? (fun p => p.1 == eventId)).map (fun p => p.2)

/-- The raw database write, which may fail (`dbFail` models the Mongo driver
rejecting). -/
def dbUpdateOne (dbFail : Bool) (store : EventStore) (e : WebhookEventLog) :
    Except String EventStore :=
  if dbFail then Except.error "db error" else Except.ok (upsertEvent store e)

/-- WebhookEventLogger.log (webhookEventLogger.ts, lines 51–64): the write is
wrapped in try/catch — on a database error it warns and returns normally with
the store unchanged. -/
def WebhookEventLogger.log (dbFail : Bool) (store : EventStore)
    (e : WebhookEventLog) : Except String EventStore :=
  match dbUpdateOne dbFail store e with
  | Except.ok s => Except.ok s
  | Except.error _ => Except.ok store

/-- The record built by WebhookEventLogger.logFailure (webhookEventLogger.ts,
lines 77–90): status is `failed` only above 5 retries, else `processing`. -/
def failureRecord (eventId errorCode errorMessage : String) (retryCount : Nat)
    (correlationId : Option String) (responseStatus : Option Nat)
    (appEnv serviceRole : String) (now : Nat) : WebhookEventLog :=
  { event_id := eventId
    env := appEnv
    service_role := serviceRole
    source := "webhook"
    error_code := some errorCode
    error_message := some errorMessage
    last_error := some errorMessage
    retry_count := retryCount
    status := if retryCount > 5 then LogStatus.failed else LogStatus.processing
    response_status := responseStatus
    timestamp := now
    correlation_id := correlationId }

/-- The record built by WebhookEventLogger.logSuccess (webhookEventLogger.ts,
lines 118–128). -/
def successRecord (eventId : String) (correlationId : Option String)
    (responseStatus : Nat) (appEnv serviceRole : String) (now : Nat) : WebhookEventLog :=
  { event_id := eventId
    env := appEnv
    service_role := serviceRole
    source := "webhook"
    error_code := none
    error_message := none
    last_error := none
    retry_count := 0
    status := LogStatus.success
    response_status := some responseStatus
    timestamp := now
    correlation_id := correlationId }

/-- WebhookEventLogger.logFailure (webhookEventLogger.ts, lines 69–108). -/
def WebhookEventLogger.logFailure (dbFail : Bool) (store : EventStore)
    (eventId errorCode errorMessage : String) (retryCount : Nat)
    (correlationId : Option String) (responseStatus : Option Nat)
    (appEnv serviceRole : String) (now : Nat) : Except String EventStore :=
  WebhookEventLogger.log dbFail store
    (failureRecord eventId errorCode errorMessage retryCount correlationId
      responseStatus appEnv serviceRole now)

/-- WebhookEventLogger.logSuccess (webhookEventLogger.ts, lines 113–131). -/
def WebhookEventLogger.logSuccess (dbFail : Bool) (store : EventStore)
    (eventId : String) (correlationId : Option String) (responseStatus : Nat)
    (appEnv serviceRole : String) (now : Nat) : Except String EventStore :=
  WebhookEventLogger.log dbFail store
    (successRecord eventId correlationId responseStatus appEnv serviceRole now)

/-- Run an `Except`-returning logger call inside the handler: the logger never
errors (its internal catch absorbs database failures), so the error branch is
unreachable and keeps the store unchanged. -/
def runLog (r : Except String EventStore) (store : EventStore) : EventStore :=
  match r with
  | Except.ok s => s
  | Except.error _ => store

/-- Observable actions of one run of the webhook entry handler, in program
order: outbound forwarding requests, outcome-record writes, and the HTTP
response to the caller. -/
inductive PipelineAction where
  | attemptReq (r : HttpRequest)
  | recordOutcome (e : WebhookEventLog)
  | respond (status : Nat)

/-- handleWebhookEntry (webhookController.ts, lines 8–77), entered after the
verification / validation / dedup middleware has passed.  `infraOk` models
whether the initial `getDb()` succeeds (its failure is the catch path);
`fwd` is the awaited result and request trace of `forwardToDestination`;
`microOnly` is FORWARD_TO_MICRO_BACKEND_ONLY.  Returns the ordered action
trace, the HTTP status sent to the caller, and the updated event store. -/
def handleWebhookEntry (infraOk : Bool) (dbFail : Bool) (store : EventStore)
    (internalEventId : String) (correlationId : Option String) (microOnly : Bool)
    (appEnv serviceRole : String) (now : Nat)
    (fwd : ForwardResult × List HttpRequest) :
    List PipelineAction × Nat × EventStore :=
  if infraOk then
    let result := fwd.1
    if result.ok = false then
      let destination := if microOnly then "micro-backend" else "n8n"
      let errorCode := "forward_failed_" ++
        (if result.status = 0 then "unknown" else toString result.status)
      let errorMsg := destination ++ " forward failed: status=" ++ toString result.status
      let failRec := failureRecord internalEventId errorCode errorMsg 0
        correlationId (some result.status) appEnv serviceRole now
      let store' := runLog (WebhookEventLogger.logFailure dbFail store
        internalEventId errorCode errorMsg 0 correlationId (some result.status)
        appEnv serviceRole now) store
      (fwd.2.map PipelineAction.attemptReq ++
        [PipelineAction.recordOutcome failRec, PipelineAction.respond 202],
       202, store')
    else
      let okRec := successRecord internalEventId correlationId 200 appEnv serviceRole now
      let store' := runLog (WebhookEventLogger.logSuccess dbFail store
        internalEventId correlationId 200 appEnv serviceRole now) store
      (fwd.2.map PipelineAction.attemptReq ++
        [PipelineAction.recordOutcome okRec, PipelineAction.respond 202],
       202, store')
  else
    let failRec := failureRecord internalEventId "handler_error" "Unknown error" 0
      correlationId none appEnv serviceRole now
    let store' := runLog (WebhookEventLogger.logFailure dbFail store
      internalEventId "handler_error" "Unknown error" 0 correlationId none
      appEnv serviceRole now) store
    ([PipelineAction.recordOutcome failRec, PipelineAction.respond 500], 500, store')

/-- Tests whether an action is a success (2xx) response to the caller. -/
def isAck2xx (a : PipelineAction) : Bool :=
  match a with
  | PipelineAction.respond st => if 200 ≤ st ∧ st < 300 then true else false
  | _ => false

/-- Tests whether an action is an outbound forwarding attempt. -/
def isForwardAttempt (a : PipelineAction) : Bool :=
  match a with
  | PipelineAction.attemptReq _ => true
  | _ => false

/-- The ordering property asserted by the specification for one handler run:
when any forwarding attempt occurs, a 2xx acknowledgment occurs strictly
before the first forwarding attempt. -/
def ackBeforeForward (tr : List PipelineAction) : Bool :=
  match tr.findIdx? isForwardAttempt with
  | none => true
  | some j =>
    match tr.findIdx? isAck2xx with
    | some i => decide (i < j)
    | none => false

/-- The fixed outbound request of one forwardToMicroBackend run: URL, adapted
body and headers are computed once, before the first attempt
(microBackendForwarder.ts, lines 144–183). -/
def microBackendRequest (cfg : MicroBackendEnv)
    (hmacSha256Hex : String → String → String) (nowIso : String) (nowSec : Nat)
    (payload : Json) (internalEventId : String) (correlationId : Option String) :
    HttpRequest :=
  let adaptedPayload := envelopeToJson
    (adaptPayloadForMicroBackend payload internalEventId correlationId nowIso)
  let signed := generateMicroBackendSignature hmacSha256Hex adaptedPayload
    cfg.microBackendHmacSecret nowSec
  { url := cfg.microBackendUrl ++ "/api/v1/flow/create"
    body := adaptedPayload
    headers := buildMicroBackendHeaders signed.1 signed.2
      cfg.microBackendDeviceId cfg.microBackendJwt correlationId }

/-- The canonical outbound message `${timestamp}.${JSON.stringify(payload)}`
(microBackendForwarder.ts, line 18). -/
def canonicalOutboundMessage (envJson : Json) (nowSec : Nat) : String :=
  toString nowSec ++ "." ++ Json.serialize envJson

/-- Lower-case hexadecimal digit, the alphabet of `digest('hex')`. -/
def isHexChar (c : Char) : Bool :=
  decide (('0' ≤ c ∧ c ≤ '9') ∨ ('a' ≤ c ∧ c ≤ 'f'))

/-! Helper lemmas shared by the claim theorems. -/

/-- Every request sent by the retry loop equals the fixed request built from
the loop-invariant url, payload and headers. -/
theorem forwardGo_trace_mem (url : String) (p : Json) (hs : List (String × String))
    (target : Nat → AttemptOutcome) :
    ∀ (fuel attempt : Nat) (lastMsg : Option String) (r : HttpRequest),
      r ∈ (forwardGo url p hs target attempt lastMsg fuel).2 →
      r = { url := url, body := p, headers := hs } := by
  intro fuel
  induction fuel with
  | zero =>
    intro attempt lastMsg r hr
    simp [forwardGo] at hr
  | succ n ih =>
    intro attempt lastMsg r hr
    cases htgt : target attempt with
    | success st body =>
      simp [forwardGo, htgt] at hr
      exact hr
    | httpError st body msg =>
      by_cases hnr : isNonRetryableStatus st
      · simp [forwardGo, htgt, hnr] at hr
        exact hr
      · simp [forwardGo, htgt, hnr] at hr
        rcases hr with hr | hr
        · exact hr
        · exact ih (attempt + 1) (some msg) r hr
    | networkError msg =>
      simp [forwardGo, htgt] at hr
      rcases hr with hr | hr
      · exact hr
      · exact ih (attempt + 1) (some msg) r hr

/-- Reading back the upserted key returns the upserted record. -/
theorem lookupEvent_upsertEvent (store : EventStore) (e : WebhookEventLog) :
    lookupEvent (upsertEvent store e) e.event_id = some e := by
  induction store with
  | nil => simp [upsertEvent, lookupEvent]
  | cons kv rest ih =>
    obtain ⟨k, v⟩ := kv
    by_cases hk : k = e.event_id
    · simp [upsertEvent, hk, lookupEvent]
    · simpa [upsertEvent, hk, lookupEvent] using ih

/-- On every non-null value, JavaScript member access returns normally and
agrees with the total field accessor. -/
theorem memberAccess_eq_getField (body : Json) (k : String) (h : body ≠ Json.null) :
    Json.memberAccess body k = Except.ok (body.getField k) := by
  cases body <;> simp_all [Json.memberAccess, Json.getField]

/-- The X-Signature header of the outbound header set is exactly the signature
it was built from. -/
theorem headerVal_sig (signature timestamp deviceId jwtToken : String)
    (correlationId : Option String) :
    headerVal (buildMicroBackendHeaders signature timestamp deviceId jwtToken
      correlationId) "X-Signature" = some signature := rfl

/-- The X-Timestamp header of the outbound header set is exactly the timestamp
it was built from. -/
theorem headerVal_ts (signature timestamp deviceId jwtToken : String)
    (correlationId : Option String) :
    headerVal (buildMicroBackendHeaders signature timestamp deviceId jwtToken
      correlationId) "X-Timestamp" = some timestamp := rfl

/-! Claim theorems. -/

/-- C3: whenever the first attempt of a forwarding run observes an HTTP status
in [400, 500) other than 429, the ForwardingClient performs no further
attempts: exactly one request is sent, and the run ends as a terminal failure
with ok = false carrying that status. -/
theorem non_retryable_4xx_single_attempt
    (url : String) (p : Json) (hs : List (String × String))
    (target : Nat → AttemptOutcome) (maxRetries st : Nat) (body : Json) (msg : String)
    (hmax : 1 ≤ maxRetries)
    (h1 : target 1 = AttemptOutcome.httpError st body msg)
    (h400 : 400 ≤ st) (h500 : st < 500) (h429 : st ≠ 429) :
    forwardWithRetry url p hs target maxRetries =
      ({ ok := false, status := st, body := some body },
       [{ url := url, body := p, headers := hs }]) := by
  obtain ⟨m, rfl⟩ : ∃ m, maxRetries = m + 1 := ⟨maxRetries - 1, by omega⟩
  have hnr : isNonRetryableStatus st := ⟨by omega, h400, h500, h429⟩
  simp [forwardWithRetry, forwardGo, h1, hnr]

/-- Witness for C3: a target answering 404 on attempt 1 yields one attempt and
a terminal ok = false result carrying 404. -/
theorem non_retryable_4xx_single_attempt_witness :
    (1 ≤ 3 ∧ 400 ≤ 404 ∧ 404 < 500 ∧ 404 ≠ 429) ∧
    forwardWithRetry "u" Json.null [] (fun _ => AttemptOutcome.httpError 404 Json.null "nf") 3 =
      ({ ok := false, status := 404, body := some Json.null },
       [{ url := "u", body := Json.null, headers := [] }]) :=
  ⟨by norm_num,
   non_retryable_4xx_single_attempt "u" Json.null []
     (fun _ => AttemptOutcome.httpError 404 Json.null "nf") 3 404 Json.null "nf"
     (by norm_num) rfl (by norm_num) (by norm_num) (by norm_num)⟩

/-- C6: in every forwarding run the outbound URL, body and header set
(including X-Signature and X-Timestamp) are fixed before the first attempt,
and every attempt of the run sends that identical request: the request trace is
a replication of the single fixed request. -/
theorem retries_reuse_identical_request (cfg : MicroBackendEnv)
    (hmacSha256Hex : String → String → String) (nowIso : String) (nowSec : Nat)
    (payload : Json) (internalEventId : String) (correlationId : Option String)
    (target : Nat → AttemptOutcome) :
    (forwardToMicroBackend cfg hmacSha256Hex nowIso nowSec payload internalEventId
        correlationId target).2 =
      List.replicate
        (forwardToMicroBackend cfg hmacSha256Hex nowIso nowSec payload internalEventId
          correlationId target).2.length
        (microBackendRequest cfg hmacSha256Hex nowIso nowSec payload internalEventId
          correlationId) := by
  by_cases hu : cfg.microBackendUrl = ""
  · simp [forwardToMicroBackend, hu]
  · by_cases hsec : cfg.microBackendHmacSecret = ""
    · simp [forwardToMicroBackend, hu, hsec]
    · rw [List.eq_replicate_iff]
      refine ⟨rfl, ?_⟩
      intro r hr
      simp only [forwardToMicroBackend, hu, hsec, if_false, if_neg, ite_false,
        forwardWithRetry] at hr
      exact forwardGo_trace_mem _ _ _ _ _ _ _ r hr

/-- C5: the OutboundSigner's digest is computed over exactly the canonical
message `timestampString ++ "." ++ compactJSON(envelope)` under the outbound
secret; every request of the forwarding run carries that digest verbatim in
X-Signature (and the signed timestamp in X-Timestamp); and, the digest being
lower-case hex, the header value carries no `sha256=` scheme prefix. -/
theorem outbound_signature_canonical_message (cfg : MicroBackendEnv)
    (hmacSha256Hex : String → String → String) (nowIso : String) (nowSec : Nat)
    (payload : Json) (internalEventId : String) (correlationId : Option String)
    (target : Nat → AttemptOutcome)
    (hu : cfg.microBackendUrl ≠ "") (hsec : cfg.microBackendHmacSecret ≠ "") :
    (generateMicroBackendSignature hmacSha256Hex
        (envelopeToJson (adaptPayloadForMicroBackend payload internalEventId
          correlationId nowIso)) cfg.microBackendHmacSecret nowSec).1 =
      hmacSha256Hex cfg.microBackendHmacSecret
        (canonicalOutboundMessage
          (envelopeToJson (adaptPayloadForMicroBackend payload internalEventId
            correlationId nowIso)) nowSec) ∧
    (∀ r ∈ (forwardToMicroBackend cfg hmacSha256Hex nowIso nowSec payload
        internalEventId correlationId target).2,
      headerVal r.headers "X-Signature" =
        some (hmacSha256Hex cfg.microBackendHmacSecret
          (canonicalOutboundMessage
            (envelopeToJson (adaptPayloadForMicroBackend payload internalEventId
              correlationId nowIso)) nowSec)) ∧
      headerVal r.headers "X-Timestamp" = some (toString nowSec)) ∧
    ((∀ c ∈ (hmacSha256Hex cfg.microBackendHmacSecret
        (canonicalOutboundMessage
          (envelopeToJson (adaptPayloadForMicroBackend payload internalEventId
            correlationId nowIso)) nowSec)).data, isHexChar c = true) →
      (hmacSha256Hex cfg.microBackendHmacSecret
        (canonicalOutboundMessage
          (envelopeToJson (adaptPayloadForMicroBackend payload internalEventId
            correlationId nowIso)) nowSec)).data.take 7 ≠ "sha256=".data) := by
  refine ⟨rfl, ?_, ?_⟩
  · intro r hr
    simp only [forwardToMicroBackend, if_neg hu, if_neg hsec,
      forwardWithRetry] at hr
    have hreq := forwardGo_trace_mem _ _ _ _ _ _ _ r hr
    rw [hreq]
    exact ⟨headerVal_sig _ _ _ _ _, headerVal_ts _ _ _ _ _⟩
  · intro hhex hcon
    have hsha : "sha256=".data = ['s', 'h', 'a', '2', '5', '6', '='] := rfl
    cases hd : (hmacSha256Hex cfg.microBackendHmacSecret
        (canonicalOutboundMessage
          (envelopeToJson (adaptPayloadForMicroBackend payload internalEventId
            correlationId nowIso)) nowSec)).data with
    | nil => rw [hd, hsha] at hcon; simp at hcon
    | cons c cs =>
      rw [hd, hsha] at hcon
      simp only [List.take, List.cons.injEq] at hcon
      have hcs : c = 's' := hcon.1
      have hmem : c ∈ (hmacSha256Hex cfg.microBackendHmacSecret
          (canonicalOutboundMessage
            (envelopeToJson (adaptPayloadForMicroBackend payload internalEventId
              correlationId nowIso)) nowSec)).data := by
        rw [hd]; exact List.mem_cons_self _ _
      have := hhex c hmem
      rw [hcs] at this
      exact absurd this (by decide)

/-- Witness for C5 at a concrete configuration, envelope and hex digest. -/
theorem outbound_signature_canonical_message_witness :
    (("http://mb" : String) ≠ "" ∧ ("s3cr3t" : String) ≠ "") ∧
    ((generateMicroBackendSignature (fun _ _ => "0a1b2c")
        (envelopeToJson (adaptPayloadForMicroBackend (Json.obj []) "e1" none "t"))
        "s3cr3t" 7).1 =
      (fun (_ _ : String) => "0a1b2c") "s3cr3t"
        (canonicalOutboundMessage
          (envelopeToJson (adaptPayloadForMicroBackend (Json.obj []) "e1" none "t")) 7) ∧
    (∀ r ∈ (forwardToMicroBackend
        { microBackendUrl := "http://mb", microBackendHmacSecret := "s3cr3t",
          microBackendJwt := "", microBackendDeviceId := "dev" }
        (fun _ _ => "0a1b2c") "t" 7 (Json.obj []) "e1" none
        (fun _ => AttemptOutcome.success 201 Json.null)).2,
      headerVal r.headers "X-Signature" =
        some ((fun (_ _ : String) => "0a1b2c") "s3cr3t"
          (canonicalOutboundMessage
            (envelopeToJson (adaptPayloadForMicroBackend (Json.obj []) "e1" none "t")) 7)) ∧
      headerVal r.headers "X-Timestamp" = some (toString 7)) ∧
    ((∀ c ∈ ((fun (_ _ : String) => "0a1b2c") "s3cr3t"
        (canonicalOutboundMessage
          (envelopeToJson (adaptPayloadForMicroBackend (Json.obj []) "e1" none "t")) 7)).data,
        isHexChar c = true) →
      ((fun (_ _ : String) => "0a1b2c") "s3cr3t"
        (canonicalOutboundMessage
          (envelopeToJson (adaptPayloadForMicroBackend (Json.obj []) "e1" none "t")) 7)).data.take 7 ≠
        "sha256=".data)) :=
  ⟨⟨by decide, by decide⟩,
   outbound_signature_canonical_message
     { microBackendUrl := "http://mb", microBackendHmacSecret := "s3cr3t",
       microBackendJwt := "", microBackendDeviceId := "dev" }
     (fun _ _ => "0a1b2c") "t" 7 (Json.obj []) "e1" none
     (fun _ => AttemptOutcome.success 201 Json.null)
     (by decide) (by decide)⟩

/-- C4: with the default policy of 3 attempts, a target failing with 500 on
attempts 1 and 2 and answering 201 on attempt 3 makes the ForwardingClient
perform exactly 3 attempts and return ok = true with status 201, after which
the webhook handler's OutcomeRecorder persists a record with status success
for the event. -/
theorem forward_500_500_201_success_recorded (cfg : MicroBackendEnv)
    (hmacSha256Hex : String → String → String) (nowIso : String) (nowSec : Nat)
    (payload : Json) (internalEventId : String) (correlationId : Option String)
    (target : Nat → AttemptOutcome) (b1 b2 rbody : Json) (m1 m2 : String)
    (store : EventStore) (appEnv serviceRole : String) (now : Nat)
    (hu : cfg.microBackendUrl ≠ "") (hsec : cfg.microBackendHmacSecret ≠ "")
    (h1 : target 1 = AttemptOutcome.httpError 500 b1 m1)
    (h2 : target 2 = AttemptOutcome.httpError 500 b2 m2)
    (h3 : target 3 = AttemptOutcome.success 201 rbody) :
    (forwardToMicroBackend cfg hmacSha256Hex nowIso nowSec payload internalEventId
        correlationId target).1.ok = true ∧
    (forwardToMicroBackend cfg hmacSha256Hex nowIso nowSec payload internalEventId
        correlationId target).1.status = 201 ∧
    (forwardToMicroBackend cfg hmacSha256Hex nowIso nowSec payload internalEventId
        correlationId target).2.length = 3 ∧
    lookupEvent
      (handleWebhookEntry true false store internalEventId correlationId true
        appEnv serviceRole now
        (forwardToMicroBackend cfg hmacSha256Hex nowIso nowSec payload
          internalEventId correlationId target)).2.2 internalEventId =
      some (successRecord internalEventId correlationId 200 appEnv serviceRole now) ∧
    (successRecord internalEventId correlationId 200 appEnv serviceRole now).status =
      LogStatus.success := by
  have hnr : ¬ isNonRetryableStatus 500 := by simp [isNonRetryableStatus]
  have hrun : forwardToMicroBackend cfg hmacSha256Hex nowIso nowSec payload
      internalEventId correlationId target =
      ({ ok := true, status := 201, body := some rbody },
       [microBackendRequest cfg hmacSha256Hex nowIso nowSec payload internalEventId
          correlationId,
        microBackendRequest cfg hmacSha256Hex nowIso nowSec payload internalEventId
          correlationId,
        microBackendRequest cfg hmacSha256Hex nowIso nowSec payload internalEventId
          correlationId]) := by
    simp [forwardToMicroBackend, hu, hsec, forwardWithRetry,
      MAX_MICRO_BACKEND_RETRIES, forwardGo, h1, h2, h3, hnr, microBackendRequest]
  refine ⟨by rw [hrun], by rw [hrun], by rw [hrun]; rfl, ?_, rfl⟩
  rw [hrun]
  have hhandler : (handleWebhookEntry true false store internalEventId correlationId true
      appEnv serviceRole now
      ({ ok := true, status := 201, body := some rbody },
       [microBackendRequest cfg hmacSha256Hex nowIso nowSec payload internalEventId
          correlationId,
        microBackendRequest cfg hmacSha256Hex nowIso nowSec payload internalEventId
          correlationId,
        microBackendRequest cfg hmacSha256Hex nowIso nowSec payload internalEventId
          correlationId])).2.2 =
      upsertEvent store (successRecord internalEventId correlationId 200 appEnv
        serviceRole now) := by
    simp [handleWebhookEntry, runLog, WebhookEventLogger.logSuccess,
      WebhookEventLogger.log, dbUpdateOne]
  rw [hhandler]
  exact lookupEvent_upsertEvent store _

/-- Witness for C4, executed at a concrete configuration and target. -/
theorem forward_500_500_201_success_recorded_witness :
    (("http://mb" : String) ≠ "" ∧ ("s3cr3t" : String) ≠ "" ∧
     (fun n => match n with
       | 1 => AttemptOutcome.httpError 500 Json.null "e1"
       | 2 => AttemptOutcome.httpError 500 Json.null "e2"
       | _ => AttemptOutcome.success 201 Json.null) 1 =
        AttemptOutcome.httpError 500 Json.null "e1") ∧
    (forwardToMicroBackend
      { microBackendUrl := "http://mb", microBackendHmacSecret := "s3cr3t",
        microBackendJwt := "", microBackendDeviceId := "dev" }
      (fun _ _ => "0a1b2c") "t" 7 (Json.obj []) "e1" none
      (fun n => match n with
       | 1 => AttemptOutcome.httpError 500 Json.null "e1"
       | 2 => AttemptOutcome.httpError 500 Json.null "e2"
       | _ => AttemptOutcome.success 201 Json.null)).1.status = 201 ∧
    lookupEvent
      (handleWebhookEntry true false [] "e1" none true "prod" "webhook-edge" 0
        (forwardToMicroBackend
          { microBackendUrl := "http://mb", microBackendHmacSecret := "s3cr3t",
            microBackendJwt := "", microBackendDeviceId := "dev" }
          (fun _ _ => "0a1b2c") "t" 7 (Json.obj []) "e1" none
          (fun n => match n with
           | 1 => AttemptOutcome.httpError 500 Json.null "e1"
           | 2 => AttemptOutcome.httpError 500 Json.null "e2"
           | _ => AttemptOutcome.success 201 Json.null))).2.2 "e1" =
      some (successRecord "e1" none 200 "prod" "webhook-edge" 0) := by
  have h := forward_500_500_201_success_recorded
    { microBackendUrl := "http://mb", microBackendHmacSecret := "s3cr3t",
      microBackendJwt := "", microBackendDeviceId := "dev" }
    (fun _ _ => "0a1b2c") "t" 7 (Json.obj []) "e1" none
    (fun n => match n with
     | 1 => AttemptOutcome.httpError 500 Json.null "e1"
     | 2 => AttemptOutcome.httpError 500 Json.null "e2"
     | _ => AttemptOutcome.success 201 Json.null)
    Json.null Json.null Json.null "e1" "e2" [] "prod" "webhook-edge" 0
    (by decide) (by decide) rfl rfl rfl
  exact ⟨⟨by decide, by decide, rfl⟩, h.2.1, h.2.2.2.1⟩

/-- C1 counterexample: a concrete run of the webhook entry handler in which
verification and deduplication have passed and the forwarding target answers
immediately, yet no 2xx acknowledgment precedes the first forwarding attempt —
the handler awaits the forwarding call and responds only afterwards, so the
claimed ordering is false on the code. -/
theorem ack_before_forward_false_on_code :
    ackBeforeForward
      (handleWebhookEntry true false [] "e1" none true "prod" "webhook-edge" 0
        (forwardToMicroBackend
          { microBackendUrl := "http://mb", microBackendHmacSecret := "s3cr3t",
            microBackendJwt := "", microBackendDeviceId := "dev" }
          (fun _ _ => "0a1b2c") "t" 7 (Json.obj []) "e1" none
          (fun _ => AttemptOutcome.success 201 Json.null))).1 = false := by
  decide

/-- C1 amended: for every inbound event that passes verification and
deduplication, the handler first performs the whole forwarding run (all of its
attempts), then records the outcome, and only then sends the 2xx
acknowledgment — the acknowledgment is the last action of the run and is
blocked on the forwarding outcome, though its status is 202 either way. -/
theorem ack_sent_after_forwarding_completes (dbFail : Bool) (store : EventStore)
    (internalEventId : String) (correlationId : Option String) (microOnly : Bool)
    (appEnv serviceRole : String) (now : Nat)
    (fwd : ForwardResult × List HttpRequest) :
    ∃ e, (handleWebhookEntry true dbFail store internalEventId correlationId
        microOnly appEnv serviceRole now fwd).1 =
      fwd.2.map PipelineAction.attemptReq ++
        [PipelineAction.recordOutcome e, PipelineAction.respond 202] ∧
      (handleWebhookEntry true dbFail store internalEventId correlationId
        microOnly appEnv serviceRole now fwd).2.1 = 202 := by
  by_cases hok : fwd.1.ok = false
  · exact ⟨failureRecord internalEventId
      ("forward_failed_" ++ if fwd.1.status = 0 then "unknown" else toString fwd.1.status)
      ((if microOnly = true then "micro-backend" else "n8n") ++
        " forward failed: status=" ++ toString fwd.1.status)
      0 correlationId (some fwd.1.status) appEnv serviceRole now,
      by simp [handleWebhookEntry, hok], by simp [handleWebhookEntry, hok]⟩
  · exact ⟨successRecord internalEventId correlationId 200 appEnv serviceRole now,
      by simp [handleWebhookEntry, hok], by simp [handleWebhookEntry, hok]⟩

/-- C2: for every request that passed authentication and structural validation
(and whose handler infrastructure initializes), the status returned to the
caller is 202 — a success status — for every possible forwarding result:
success, terminal failure, or exhausted retries; no forwarding-stage error
reaches the caller. -/
theorem caller_always_acknowledged_2xx (dbFail : Bool) (store : EventStore)
    (internalEventId : String) (correlationId : Option String) (microOnly : Bool)
    (appEnv serviceRole : String) (now : Nat)
    (fwd : ForwardResult × List HttpRequest) :
    (handleWebhookEntry true dbFail store internalEventId correlationId microOnly
        appEnv serviceRole now fwd).2.1 = 202 ∧
    200 ≤ (handleWebhookEntry true dbFail store internalEventId correlationId
        microOnly appEnv serviceRole now fwd).2.1 ∧
    (handleWebhookEntry true dbFail store internalEventId correlationId microOnly
        appEnv serviceRole now fwd).2.1 < 300 := by
  by_cases hok : fwd.1.ok = false
  · refine ⟨?_, ?_, ?_⟩ <;> simp [handleWebhookEntry, hok]
  · refine ⟨?_, ?_, ?_⟩ <;> simp [handleWebhookEntry, hok]

/-- C7 counterexample: an inbound body whose `type` field is present but equal
to the empty string — the adapter replaces it with the default
"webhook_received" instead of preserving the present field, because the source
tests JavaScript truthiness, not presence. -/
theorem adapt_present_falsy_type_not_used :
    (Json.obj [("type", Json.str "")]).getField "type" = some (Json.str "") ∧
    (adaptPayloadForMicroBackend (Json.obj [("type", Json.str "")]) "e1" none
      "t").event_type ≠ Json.str "" := by
  constructor
  · rfl
  · intro h
    have : (adaptPayloadForMicroBackend (Json.obj [("type", Json.str "")]) "e1" none
        "t").event_type = Json.str "webhook_received" := rfl
    rw [this] at h
    exact absurd (Json.str.inj h) (by decide)

/-- C7 amended: for every non-null JSON-decodable inbound body, event id and
optional correlation id, adapt returns normally (the member accesses do not
throw, agreeing with the pure adapter) and yields an envelope whose payload is
the inbound body verbatim, whose event_type equals the body's `type` field
when that field is present and truthy (defaulting to "webhook_received" when
the field is absent or falsy), and whose external_id equals the body's `id`
field when present and truthy (defaulting to the internal event id
otherwise); on the JSON-decodable body `null` the adapter's member access
throws a TypeError instead of returning an envelope, so adapt is not total
over all decodable bodies. -/
theorem adapt_envelope_fields (body : Json) (internalEventId : String)
    (correlationId : Option String) (nowIso : String) (hnn : body ≠ Json.null) :
    adaptPayloadForMicroBackendChecked body internalEventId correlationId nowIso =
      Except.ok (adaptPayloadForMicroBackend body internalEventId correlationId
        nowIso) ∧
    (adaptPayloadForMicroBackend body internalEventId correlationId nowIso).payload
      = body ∧
    (∀ v, body.getField "type" = some v → v.truthy = true →
      (adaptPayloadForMicroBackend body internalEventId correlationId
        nowIso).event_type = v) ∧
    (∀ v, body.getField "type" = some v → v.truthy = false →
      (adaptPayloadForMicroBackend body internalEventId correlationId
        nowIso).event_type = Json.str "webhook_received") ∧
    (body.getField "type" = none →
      (adaptPayloadForMicroBackend body internalEventId correlationId
        nowIso).event_type = Json.str "webhook_received") ∧
    (∀ v, body.getField "id" = some v → v.truthy = true →
      (adaptPayloadForMicroBackend body internalEventId correlationId
        nowIso).external_id = v) ∧
    (∀ v, body.getField "id" = some v → v.truthy = false →
      (adaptPayloadForMicroBackend body internalEventId correlationId
        nowIso).external_id = Json.str internalEventId) ∧
    (body.getField "id" = none →
      (adaptPayloadForMicroBackend body internalEventId correlationId
        nowIso).external_id = Json.str internalEventId) ∧
    (∀ (eid : String) (cid : Option String) (t : String),
      adaptPayloadForMicroBackendChecked Json.null eid cid t =
        Except.error "TypeError: cannot read properties of null") := by
  refine ⟨?_, rfl, ?_, ?_, ?_, ?_, ?_, ?_, ?_⟩
  · simp [adaptPayloadForMicroBackendChecked,
      memberAccess_eq_getField body "type" hnn,
      memberAccess_eq_getField body "id" hnn,
      adaptPayloadForMicroBackend, Bind.bind, Except.bind, Pure.pure, Except.pure]
  · intro v hv htr
    simp [adaptPayloadForMicroBackend, jsOr, hv, htr]
  · intro v hv htr
    simp [adaptPayloadForMicroBackend, jsOr, hv, htr]
  · intro hv
    simp [adaptPayloadForMicroBackend, jsOr, hv]
  · intro v hv htr
    simp [adaptPayloadForMicroBackend, jsOr, hv, htr]
  · intro v hv htr
    simp [adaptPayloadForMicroBackend, jsOr, hv, htr]
  · intro hv
    simp [adaptPayloadForMicroBackend, jsOr, hv]
  · intro eid cid t
    rfl

/-- Witness for C7 at a concrete non-null body carrying truthy `type` and `id`
fields, together with the TypeError at the null body. -/
theorem adapt_envelope_fields_witness :
    (Json.obj [("type", Json.str "user.created"), ("id", Json.str "evt_123")] ≠
      Json.null) ∧
    adaptPayloadForMicroBackendChecked
        (Json.obj [("type", Json.str "user.created"), ("id", Json.str "evt_123")])
        "e1" none "t" =
      Except.ok (adaptPayloadForMicroBackend
        (Json.obj [("type", Json.str "user.created"), ("id", Json.str "evt_123")])
        "e1" none "t") ∧
    (adaptPayloadForMicroBackend
        (Json.obj [("type", Json.str "user.created"), ("id", Json.str "evt_123")])
        "e1" none "t").payload =
      Json.obj [("type", Json.str "user.created"), ("id", Json.str "evt_123")] ∧
    (adaptPayloadForMicroBackend
        (Json.obj [("type", Json.str "user.created"), ("id", Json.str "evt_123")])
        "e1" none "t").event_type = Json.str "user.created" ∧
    (adaptPayloadForMicroBackend
        (Json.obj [("type", Json.str "user.created"), ("id", Json.str "evt_123")])
        "e1" none "t").external_id = Json.str "evt_123" ∧
    adaptPayloadForMicroBackendChecked Json.null "e1" none "t" =
      Except.error "TypeError: cannot read properties of null" := by
  have h := adapt_envelope_fields
    (Json.obj [("type", Json.str "user.created"), ("id", Json.str "evt_123")])
    "e1" none "t" (by intro hh; exact Json.noConfusion hh)
  exact ⟨by intro hh; exact Json.noConfusion hh, h.1, h.2.1,
    h.2.2.1 (Json.str "user.created") rfl rfl,
    h.2.2.2.2.2.1 (Json.str "evt_123") rfl rfl,
    h.2.2.2.2.2.2.2.2 "e1" none "t"⟩

/-- C8 counterexample: two invocations of the adapter with identical inbound
body, internal event id and correlation id but two different ambient clock
readings return different envelopes — `occurred_at` is the adaptation time, an
implicit input, so the adapter is not a function of its explicit inputs
alone. -/
theorem adapt_not_deterministic_in_explicit_inputs :
    adaptPayloadForMicroBackend (Json.obj []) "e1" none "2025-01-01T00:00:00.000Z" ≠
      adaptPayloadForMicroBackend (Json.obj []) "e1" none "2025-01-01T00:00:01.000Z" := by
  intro h
  have := congrArg AdaptedEnvelope.occurred_at h
  exact absurd this (by decide)

/-- C8 amended: the PayloadAdapter is a pure, deterministic function of its
explicit inputs plus the adaptation-time clock: two invocations with the same
body, event id and correlation id agree on every field except occurred_at, and
agree on occurred_at (hence on the whole envelope) whenever the two adaptation
times coincide. -/
theorem adapt_deterministic_given_clock (body : Json) (internalEventId : String)
    (correlationId : Option String) (t1 t2 : String) :
    ((adaptPayloadForMicroBackend body internalEventId correlationId t1).source =
       (adaptPayloadForMicroBackend body internalEventId correlationId t2).source ∧
     (adaptPayloadForMicroBackend body internalEventId correlationId t1).event_type =
       (adaptPayloadForMicroBackend body internalEventId correlationId t2).event_type ∧
     (adaptPayloadForMicroBackend body internalEventId correlationId t1).external_id =
       (adaptPayloadForMicroBackend body internalEventId correlationId t2).external_id ∧
     (adaptPayloadForMicroBackend body internalEventId correlationId t1).payload =
       (adaptPayloadForMicroBackend body internalEventId correlationId t2).payload ∧
     (adaptPayloadForMicroBackend body internalEventId correlationId t1).correlation_id =
       (adaptPayloadForMicroBackend body internalEventId correlationId t2).correlation_id ∧
     (adaptPayloadForMicroBackend body internalEventId correlationId t1).internal_event_id =
       (adaptPayloadForMicroBackend body internalEventId correlationId t2).internal_event_id) ∧
    (t1 = t2 →
      adaptPayloadForMicroBackend body internalEventId correlationId t1 =
        adaptPayloadForMicroBackend body internalEventId correlationId t2) := by
  refine ⟨⟨rfl, rfl, rfl, rfl, rfl, rfl⟩, ?_⟩
  intro h
  rw [h]

/-- Witness for C8 at a concrete body and a shared clock reading. -/
theorem adapt_deterministic_given_clock_witness :
    (("t0" : String) = "t0") ∧
    adaptPayloadForMicroBackend (Json.obj []) "e1" none "t0" =
      adaptPayloadForMicroBackend (Json.obj []) "e1" none "t0" :=
  ⟨rfl, (adapt_deterministic_given_clock (Json.obj []) "e1" none "t0" "t0").2 rfl⟩

/-- C9: every call of logFailure or logSuccess returns normally — a database
error while persisting the record is absorbed inside the recorder's internal
catch and never propagates as an exception, and when absorbed it leaves the
store unchanged, so the rest of the pipeline is unaffected. -/
theorem outcome_recording_never_throws (dbFail : Bool) (store : EventStore)
    (eventId errorCode errorMessage : String) (retryCount : Nat)
    (correlationId : Option String) (responseStatus : Option Nat)
    (appEnv serviceRole : String) (now : Nat) (okStatus : Nat) :
    (∃ s, WebhookEventLogger.logFailure dbFail store eventId errorCode errorMessage
        retryCount correlationId responseStatus appEnv serviceRole now =
      Except.ok s) ∧
    (∃ s, WebhookEventLogger.logSuccess dbFail store eventId correlationId okStatus
        appEnv serviceRole now = Except.ok s) ∧
    WebhookEventLogger.logFailure true store eventId errorCode errorMessage
        retryCount correlationId responseStatus appEnv serviceRole now =
      Except.ok store ∧
    WebhookEventLogger.logSuccess true store eventId correlationId okStatus
        appEnv serviceRole now = Except.ok store := by
  refine ⟨?_, ?_, rfl, rfl⟩ <;>
    cases dbFail <;>
    exact ⟨_, rfl⟩

/-- C10: a recorded forwarding failure carries status failed exactly when the
retryCount argument exceeds 5; and since the webhook handler always passes
retryCount 0, every terminal forwarding failure it records is persisted under
the event id with status processing and retry_count 0 — never failed. -/
theorem terminal_failures_recorded_as_processing (eventId errorCode errorMessage : String)
    (retryCount : Nat) (correlationId : Option String) (responseStatus : Option Nat)
    (appEnv serviceRole : String) (now : Nat) (store : EventStore)
    (internalEventId : String) (cid : Option String) (microOnly : Bool)
    (fwd : ForwardResult × List HttpRequest)
    (hok : fwd.1.ok = false) :
    ((failureRecord eventId errorCode errorMessage retryCount correlationId
        responseStatus appEnv serviceRole now).status = LogStatus.failed ↔
      retryCount > 5) ∧
    (∃ e, (handleWebhookEntry true false store internalEventId cid microOnly
          appEnv serviceRole now fwd).1 =
        fwd.2.map PipelineAction.attemptReq ++
          [PipelineAction.recordOutcome e, PipelineAction.respond 202] ∧
      e.status = LogStatus.processing ∧
      e.retry_count = 0 ∧
      lookupEvent (handleWebhookEntry true false store internalEventId cid microOnly
          appEnv serviceRole now fwd).2.2 internalEventId = some e) := by
  constructor
  · by_cases h5 : retryCount > 5 <;> simp [failureRecord, h5]
  · refine ⟨failureRecord internalEventId
      ("forward_failed_" ++ if fwd.1.status = 0 then "unknown" else toString fwd.1.status)
      ((if microOnly = true then "micro-backend" else "n8n") ++
        " forward failed: status=" ++ toString fwd.1.status)
      0 cid (some fwd.1.status) appEnv serviceRole now, ?_, ?_, rfl, ?_⟩
    · simp [handleWebhookEntry, hok]
    · simp [failureRecord]
    · have hstore : (handleWebhookEntry true false store internalEventId cid microOnly
          appEnv serviceRole now fwd).2.2 =
        upsertEvent store (failureRecord internalEventId
          ("forward_failed_" ++
            if fwd.1.status = 0 then "unknown" else toString fwd.1.status)
          ((if microOnly = true then "micro-backend" else "n8n") ++
            " forward failed: status=" ++ toString fwd.1.status)
          0 cid (some fwd.1.status) appEnv serviceRole now) := by
        simp [handleWebhookEntry, hok, runLog, WebhookEventLogger.logFailure,
          WebhookEventLogger.log, dbUpdateOne]
      rw [hstore]
      exact lookupEvent_upsertEvent store _

/-- Witness for C10 at a concrete failing forwarding result. -/
theorem terminal_failures_recorded_as_processing_witness :
    ((({ ok := false, status := 400, body := none } : ForwardResult),
        ([] : List HttpRequest)).1.ok = false) ∧
    (((failureRecord "e9" "c" "m" 9 none none "prod" "webhook-edge" 0).status =
        LogStatus.failed ↔ 9 > 5) ∧
     (∃ e, (handleWebhookEntry true false [] "e1" none true "prod" "webhook-edge" 0
          (({ ok := false, status := 400, body := none } : ForwardResult),
            ([] : List HttpRequest))).1 =
        ([] : List HttpRequest).map PipelineAction.attemptReq ++
          [PipelineAction.recordOutcome e, PipelineAction.respond 202] ∧
      e.status = LogStatus.processing ∧
      e.retry_count = 0 ∧
      lookupEvent (handleWebhookEntry true false [] "e1" none true "prod" "webhook-edge" 0
          (({ ok := false, status := 400, body := none } : ForwardResult),
            ([] : List HttpRequest))).2.2 "e1" = some e)) :=
  ⟨rfl,
   terminal_failures_recorded_as_processing "e9" "c" "m" 9 none none "prod"
     "webhook-edge" 0 [] "e1" none true
     (({ ok := false, status := 400, body := none } : ForwardResult),
       ([] : List HttpRequest)) rfl⟩
